import Mathlib

/-!
Shallow embedding of the WhatsApp webhook bot (`src/main.py`): the
request-to-reply pipeline of `handle_webhook`, the verification handshake
`verify_webhook`, the reply generator `BrowStudioBot` (system prompt and
fallback), and the effect trace of the downstream services (dispatch,
counter update, history write).  External services (the database, the
model API, the outbound HTTP transport) are oracles carried in `Env`;
the pipeline's observable behaviour is the returned status code together
with the list of effects it issues.
-/

namespace DinaBrows

/-- One row of the tenant's `services` list, as the Python code reads it
with `dict.get` (a missing key yields the coded default). -/
structure Service where
  service_name : Option String
  price : Option String
  duration : Option String
  deriving Repr, DecidableEq

/-- The tenant record returned by `DatabaseService.get_tenant_data`
(`tenants` joined with `services`).  Every field the handler touches via
`dict.get` is an `Option`, `none` standing for a missing key. -/
structure TenantRecord where
  business_name : Option String
  working_hours : Option String
  business_phone : Option String
  address : Option String
  services : Option (List Service)
  message_count : Option Int
  message_limit : Option Int
  deriving Repr, DecidableEq

/-- One message inside the webhook payload: `message.get("from")`,
`message.get("type")` and `message.get("text", {}).get("body", ...)`. -/
structure Message where
  msg_from : Option String
  type : Option String
  textBody : Option String
  deriving Repr, DecidableEq

/-- `changes[i].get("value", {})` content: the handler only reads
`value.get("messages", [])`. -/
structure Value where
  messages : List Message
  deriving Repr, DecidableEq

/-- `entry[i].get("changes", [])` element. -/
structure Change where
  value : Option Value
  deriving Repr, DecidableEq

/-- `body.get("entry", [])` element. -/
structure Entry where
  changes : List Change
  deriving Repr, DecidableEq

/-- The decoded JSON body of a POST `/webhook` request. -/
structure WebhookBody where
  object : Option String
  entry : List Entry
  deriving Repr, DecidableEq

/-- A history row as inserted by `DatabaseService.save_message_history`:
both texts are truncated to 1000 characters (`s[:1000]`). -/
structure HistoryEntry where
  tenant_id : String
  phone_number : String
  user_message : String
  bot_response : String
  deriving Repr, DecidableEq

/-- The external world as the handler sees it in one request:
configuration values and the outcome oracles of each downstream call. -/
structure Env where
  /-- `Config.ENVIRONMENT`. -/
  environment : String
  /-- `Config.TEST_TENANT_ID` (`os.getenv`, so possibly absent). -/
  testTenantId : Option String
  /-- `DatabaseService.get_tenant_data`: `none` models both a lookup
  miss and a caught database exception (the Python code returns `None`
  for either). -/
  tenantData : String → Option TenantRecord
  /-- `WhatsAppService.send_message to text`: `true` iff the platform
  acknowledged with a 2xx; every failure class is converted to `false`. -/
  sendResult : String → String → Bool
  /-- The model call in `BrowStudioBot.get_response`: `some content` on
  success, `none` when the call raises in any way. -/
  modelResult : Option String
  /-- An unexpected fault raised while constructing `BrowStudioBot`
  (the one raise point inside the guarded handler body); caught by the
  handler's outer `except`. -/
  botInitFails : Bool

/-- Python truthiness of an optional string: `None` and `""` are falsy. -/
def falsyStr : Option String → Bool
  | none => true
  | some s => s == ""

/-- `get_tenant_id_from_message`: in `development` return
`Config.TEST_TENANT_ID`; the production lookup is an unimplemented TODO
returning `None`. -/
def get_tenant_id_from_message (env : Env) : Option String :=
  if env.environment = "development" then env.testTenantId else none

/-- One rendered service bullet of `_build_system_prompt`. -/
def serviceLine (s : Service) : String :=
  "- " ++ s.service_name.getD "Serviço" ++ ": R$ " ++ s.price.getD "Consulte"
    ++ " (duração: " ++ s.duration.getD "A combinar" ++ ")\n"

/-- The fallback line used when the tenant's service list is empty. -/
def noServicesLine : String :=
  "- Entre em contato para conhecer nossos serviços\n"

/-- The `services_text` accumulation loop of `_build_system_prompt`. -/
def build_services_text (services : List Service) : String :=
  match services with
  | [] => noServicesLine
  | _ => String.join (services.map serviceLine)

/-- The part of the prompt template before the service section. -/
def promptHead (info : TenantRecord) : String :=
  "Você é uma atendente virtual do " ++ info.business_name.getD "nosso estúdio"
    ++ ".\n\nINFORMAÇÕES DO NEGÓCIO:\n- Horário: "
    ++ info.working_hours.getD "Segunda a Sexta, 9h às 18h"
    ++ "\n- Telefone: " ++ info.business_phone.getD "Consulte"
    ++ "\n- Endereço: " ++ info.address.getD "Consulte"
    ++ "\n\nSERVIÇOS OFERECIDOS:\n"

/-- The fixed behavioural instructions after the service section. -/
def promptTail : String :=
  "\nINSTRUÇÕES:\n1. Responda APENAS em português brasileiro\n2. Seja simpática, profissional e prestativa\n3. Para agendamentos, direcione para o WhatsApp\n4. Se não souber algo, sugira contato direto\n5. Mantenha respostas concisas mas informativas\n6. Use emojis com moderação para tornar a conversa mais amigável"

/-- `BrowStudioBot._build_system_prompt`: the f-string template with the
studio's data and the rendered service section. -/
def build_system_prompt (info : TenantRecord) : String :=
  promptHead info ++ build_services_text (info.services.getD []) ++ promptTail

/-- The fixed apology text of `get_response`'s `except` branch, up to the
contact phone that is interpolated at its end. -/
def apologyHead : String :=
  "Desculpe, estou com um problema técnico no momento. 😔\nPor favor, entre em contato diretamente: "

/-- `BrowStudioBot.get_response`: the model's content on success, the
fixed apology with the studio's contact phone on any failure. -/
def get_response (env : Env) (studio_info : TenantRecord) (_user_message : String) : String :=
  match env.modelResult with
  | some content => content
  | none => apologyHead ++ studio_info.business_phone.getD "nosso WhatsApp"

/-- Python `str.strip()`: drop leading and trailing whitespace. -/
def pyStrip (s : String) : String :=
  ⟨((s.data.dropWhile Char.isWhitespace).reverse.dropWhile Char.isWhitespace).reverse⟩

/-- Python `s[:n]`: keep the first `n` code points. -/
def pyTake (s : String) (n : Nat) : String :=
  ⟨s.data.take n⟩

/-- The reply sent when no tenant id can be determined (lines 352–355). -/
def noTenantApology : String :=
  "Desculpe, não consegui identificar sua empresa. Por favor, verifique o número."

/-- The fixed limit-reached reply (lines 371–375). -/
def limitMessage : String :=
  "Olá! 👋 Nosso atendimento automático atingiu o limite diário.\nUm de nossos atendentes irá responder em breve. Obrigado! 🙏"

/-- The trace of downstream calls issued while handling one request. -/
structure Effects where
  /-- whether `get_tenant_id_from_message` was invoked -/
  tenantResolveCalled : Bool
  /-- arguments of each `get_tenant_data` call -/
  tenantLoads : List String
  /-- user text of each model call issued through the bot -/
  modelCalls : List String
  /-- `(to, text)` of each `send_message` dispatch attempt -/
  sent : List (String × String)
  /-- `(tenant_id, new_count)` of each `update_message_count` call -/
  counterUpdates : List (String × Int)
  /-- rows passed to `save_message_history` -/
  historyWrites : List HistoryEntry
  /-- messages logged at error level by the handler body -/
  errorLogs : List String
  deriving Repr, DecidableEq

/-- The empty trace. -/
def noEffects : Effects :=
  ⟨false, [], [], [], [], [], []⟩

/-- What one POST `/webhook` request produces: the HTTP status answered
to the transport and the effect trace. -/
structure HandlerResult where
  status : Nat
  effects : Effects
  deriving Repr, DecidableEq

/-- The handler body from tenant resolution onward (lines 347–391),
reached once a usable text message was extracted. -/
def processMessage (env : Env) (from_number message_text : String) : HandlerResult :=
  let tid? := get_tenant_id_from_message env
  let e0 : Effects := { noEffects with tenantResolveCalled := true }
  if falsyStr tid? then
    ⟨200, { e0 with
        errorLogs := ["Não foi possível determinar o tenant_id"],
        sent := [(from_number, noTenantApology)] }⟩
  else
    let tenant_id := tid?.getD ""
    let e1 : Effects := { e0 with tenantLoads := [tenant_id] }
    match env.tenantData tenant_id with
    | none =>
        ⟨200, { e1 with errorLogs := ["Tenant " ++ tenant_id ++ " não encontrado"] }⟩
    | some record =>
        let message_count := record.message_count.getD 0
        let message_limit := record.message_limit.getD 100
        if message_count ≥ message_limit then
          ⟨200, { e1 with sent := [(from_number, limitMessage)] }⟩
        else if env.botInitFails then
          ⟨200, { e1 with errorLogs := ["Erro crítico no webhook"] }⟩
        else
          let reply_text := get_response env record message_text
          let e2 : Effects := { e1 with
              modelCalls := [message_text],
              sent := [(from_number, reply_text)] }
          if env.sendResult from_number reply_text then
            ⟨200, { e2 with
                counterUpdates := [(tenant_id, message_count + 1)],
                historyWrites := [⟨tenant_id, from_number,
                  pyTake message_text 1000, pyTake reply_text 1000⟩] }⟩
          else
            ⟨200, e2⟩

/-- `handle_webhook` (POST `/webhook`): `parsed = none` models a body
that is not JSON (`request.json()` raises and the outer `except`
answers 200); otherwise the validation/extraction cascade runs and, if a
text message with a truthy sender and non-empty stripped body survives
it, `processMessage` takes over. -/
def handle_webhook (env : Env) (parsed : Option WebhookBody) : HandlerResult :=
  match parsed with
  | none => ⟨200, noEffects⟩
  | some body =>
    if body.object ≠ some "whatsapp_business_account" then ⟨200, noEffects⟩
    else match body.entry with
    | [] => ⟨200, noEffects⟩
    | e :: _ =>
      match e.changes with
      | [] => ⟨200, noEffects⟩
      | c :: _ =>
        match (c.value.getD ⟨[]⟩).messages with
        | [] => ⟨200, noEffects⟩
        | m :: _ =>
          if m.type ≠ some "text" then ⟨200, noEffects⟩
          else
            let message_text := pyStrip (m.textBody.getD "")
            if falsyStr m.msg_from || (message_text == "") then ⟨200, noEffects⟩
            else processMessage env (m.msg_from.getD "") message_text

/-- `verify_webhook` (GET `/webhook`): echo the challenge with 200 when
the mode is `subscribe` and the token matches `Config.VERIFY_TOKEN`,
otherwise raise a 403. -/
def verify_webhook (verifyToken : String) (mode token challenge : Option String) :
    Option String × Nat :=
  if mode = some "subscribe" ∧ token = some verifyToken then (challenge, 200)
  else (none, 403)

/-- `s` contains `t` as a contiguous substring. -/
def containsStr (s t : String) : Prop :=
  ∃ a b : String, s = a ++ t ++ b

/-- Every terminal branch of the post-extraction pipeline answers 200. -/
theorem processMessage_status (env : Env) (f t : String) :
    (processMessage env f t).status = 200 := by
  unfold processMessage
  dsimp only
  repeat' split
  all_goals rfl

/-- A payload that passes validation, extraction and filtering hands the
sender and the stripped text to the tenant-resolution stage. -/
theorem handle_webhook_reach (env : Env) (body : WebhookBody)
    (e : Entry) (es : List Entry) (c : Change) (cs : List Change)
    (v : Value) (m : Message) (ms : List Message)
    (hobj : body.object = some "whatsapp_business_account")
    (hentry : body.entry = e :: es)
    (hch : e.changes = c :: cs)
    (hv : c.value = some v)
    (hmsg : v.messages = m :: ms)
    (hty : m.type = some "text")
    (hfrom : falsyStr m.msg_from = false)
    (htext : ¬ (pyStrip (m.textBody.getD "") = "")) :
    handle_webhook env (some body) =
      processMessage env (m.msg_from.getD "") (pyStrip (m.textBody.getD "")) := by
  simp [handle_webhook, hobj, hentry, hch, hv, hmsg, hty, hfrom, htext]

/-- Tenant resolution yields a falsy id: apologise to the sender, log. -/
theorem processMessage_no_tenant (env : Env) (f t : String)
    (h : falsyStr (get_tenant_id_from_message env) = true) :
    processMessage env f t =
      ⟨200, { noEffects with
          tenantResolveCalled := true
          sent := [(f, noTenantApology)]
          errorLogs := ["Não foi possível determinar o tenant_id"] }⟩ := by
  unfold processMessage
  simp [h]

/-- Tenant record not found: log, no dispatch. -/
theorem processMessage_load_miss (env : Env) (f t tid : String)
    (hres : get_tenant_id_from_message env = some tid) (htid : tid ≠ "")
    (hload : env.tenantData tid = none) :
    processMessage env f t =
      ⟨200, { noEffects with
          tenantResolveCalled := true
          tenantLoads := [tid]
          errorLogs := ["Tenant " ++ tid ++ " não encontrado"] }⟩ := by
  unfold processMessage
  simp [hres, falsyStr, htid, hload]

/-- Quota reached: dispatch the fixed limit message only. -/
theorem processMessage_limit (env : Env) (f t tid : String) (r : TenantRecord)
    (hres : get_tenant_id_from_message env = some tid) (htid : tid ≠ "")
    (hload : env.tenantData tid = some r)
    (hlim : r.message_count.getD 0 ≥ r.message_limit.getD 100) :
    processMessage env f t =
      ⟨200, { noEffects with
          tenantResolveCalled := true
          tenantLoads := [tid]
          sent := [(f, limitMessage)] }⟩ := by
  unfold processMessage
  simp [hres, falsyStr, htid, hload, hlim]

/-- Within limit, delivery acknowledged: count + 1 written, one
truncated history row appended. -/
theorem processMessage_delivered (env : Env) (f t tid : String) (r : TenantRecord)
    (hres : get_tenant_id_from_message env = some tid) (htid : tid ≠ "")
    (hload : env.tenantData tid = some r)
    (hlim : ¬ r.message_count.getD 0 ≥ r.message_limit.getD 100)
    (hbot : env.botInitFails = false)
    (hsend : env.sendResult f (get_response env r t) = true) :
    processMessage env f t =
      ⟨200, { noEffects with
          tenantResolveCalled := true
          tenantLoads := [tid]
          modelCalls := [t]
          sent := [(f, get_response env r t)]
          counterUpdates := [(tid, r.message_count.getD 0 + 1)]
          historyWrites := [⟨tid, f, pyTake t 1000, pyTake (get_response env r t) 1000⟩] }⟩ := by
  unfold processMessage
  simp [hres, falsyStr, htid, hload, hlim, hbot, hsend]

/-- Within limit, delivery failed: dispatch attempted, nothing recorded. -/
theorem processMessage_send_failed (env : Env) (f t tid : String) (r : TenantRecord)
    (hres : get_tenant_id_from_message env = some tid) (htid : tid ≠ "")
    (hload : env.tenantData tid = some r)
    (hlim : ¬ r.message_count.getD 0 ≥ r.message_limit.getD 100)
    (hbot : env.botInitFails = false)
    (hsend : env.sendResult f (get_response env r t) = false) :
    processMessage env f t =
      ⟨200, { noEffects with
          tenantResolveCalled := true
          tenantLoads := [tid]
          modelCalls := [t]
          sent := [(f, get_response env r t)] }⟩ := by
  unfold processMessage
  simp [hres, falsyStr, htid, hload, hlim, hbot, hsend]

/-- A well-formed sample inbound text message. -/
def sampleMessage : Message :=
  ⟨some "5511999999999", some "text", some "Quanto custa o design de sobrancelhas?"⟩

/-- A well-formed event envelope carrying `sampleMessage`. -/
def sampleBody : WebhookBody :=
  ⟨some "whatsapp_business_account", [⟨[⟨some ⟨[sampleMessage]⟩⟩]⟩]⟩

/-- A fully populated tenant, three messages into a 100-message quota. -/
def sampleRecord : TenantRecord :=
  ⟨some "Dina Brows", some "Seg-Sex 9h-18h", some "+5511988887777",
   some "Rua das Flores 10",
   some [⟨some "Design de Sobrancelhas", some "50", some "40min"⟩],
   some 3, some 100⟩

/-- A tenant exactly at its quota (5 of 5). -/
def atLimitRecord : TenantRecord :=
  { sampleRecord with message_count := some 5, message_limit := some 5 }

/-- A tenant record carrying none of the optional fields. -/
def bareRecord : TenantRecord :=
  ⟨none, none, none, none, none, none, none⟩

/-- Development environment resolving the test tenant `t1` to `r`, with
the model call yielding `reply` and the dispatcher answering `ok`. -/
def mkEnv (r : TenantRecord) (reply : Option String) (ok : Bool) : Env :=
  ⟨"development", some "t1", fun _ => some r, fun _ _ => ok, reply, false⟩

/-- Production environment: tenant resolution is the unimplemented TODO
returning `None`. -/
def prodEnv : Env :=
  ⟨"production", none, fun _ => none, fun _ _ => true, some "olá", false⟩

/-- Development environment whose tenant record load misses. -/
def loadMissEnv : Env :=
  ⟨"development", some "t1", fun _ => none, fun _ _ => true, some "olá", false⟩

/-- C1: every POST webhook event delivery is answered with status 200 on
every path — malformed payloads, irrelevant events, lookup misses, quota
blocks, downstream failures and internal faults included. -/
theorem C1_always_acks_200 (env : Env) (parsed : Option WebhookBody) :
    (handle_webhook env parsed).status = 200 := by
  rcases parsed with _ | body
  · rfl
  · unfold handle_webhook
    dsimp only
    repeat' split
    all_goals first | rfl | apply processMessage_status

/-- C6: the handshake is a pure function of mode, token, challenge and
the configured secret: matching subscribe requests echo the challenge
with 200; a wrong token or a mode other than subscribe yields 403. -/
theorem C6_handshake_contract (secret ch : String) (mode token challenge : Option String) :
    verify_webhook secret (some "subscribe") (some secret) (some ch) = (some ch, 200) ∧
    (token ≠ some secret → (verify_webhook secret mode token challenge).2 = 403) ∧
    (mode ≠ some "subscribe" → (verify_webhook secret mode token challenge).2 = 403) := by
  refine ⟨by simp [verify_webhook], ?_, ?_⟩
  · intro h
    unfold verify_webhook
    split
    · next hc => exact absurd hc.2 h
    · rfl
  · intro h
    unfold verify_webhook
    split
    · next hc => exact absurd hc.1 h
    · rfl

/-- C6 witness: the three concrete handshake scenarios of the spec. -/
theorem C6_handshake_witness :
    verify_webhook "s3cr3t" (some "subscribe") (some "s3cr3t") (some "X") = (some "X", 200) ∧
    (verify_webhook "s3cr3t" (some "subscribe") (some "wrong") (some "X")).2 = 403 ∧
    (verify_webhook "s3cr3t" (some "unsubscribe") (some "s3cr3t") (some "X")).2 = 403 :=
  ⟨(C6_handshake_contract "s3cr3t" "X" none none none).1,
   (C6_handshake_contract "s3cr3t" "X" (some "subscribe") (some "wrong") (some "X")).2.1
     (by decide),
   (C6_handshake_contract "s3cr3t" "X" (some "unsubscribe") (some "s3cr3t") (some "X")).2.2
     (by decide)⟩

/-- C7: when the model call fails in any way, `get_response` still
returns text — the fixed apology — and that text contains the tenant's
configured contact phone. -/
theorem C7_fallback_contains_phone (env : Env) (r : TenantRecord) (msg phone : String)
    (hfail : env.modelResult = none) (hphone : r.business_phone = some phone) :
    containsStr (get_response env r msg) phone := by
  refine ⟨apologyHead, "", ?_⟩
  simp [get_response, hfail, hphone]

/-- C7 witness: a concrete failing model call; the sample tenant's phone
appears in the fallback reply. -/
theorem C7_fallback_witness :
    containsStr
      (get_response ⟨"development", some "t1", fun _ => some sampleRecord,
        fun _ _ => true, none, false⟩ sampleRecord "oi")
      "+5511988887777" :=
  C7_fallback_contains_phone _ sampleRecord "oi" "+5511988887777" rfl rfl

/-- C8: an event whose object tag is not `whatsapp_business_account` is
answered 200 with an empty effect trace: no tenant lookup, no model
call, no dispatch, no persistence write. -/
theorem C8_foreign_object_ignored (env : Env) (body : WebhookBody)
    (h : body.object ≠ some "whatsapp_business_account") :
    (handle_webhook env (some body)).status = 200 ∧
    (handle_webhook env (some body)).effects = noEffects := by
  unfold handle_webhook
  simp [h]

/-- C8 witness: a concrete event with a foreign object tag. -/
theorem C8_foreign_object_witness :
    (handle_webhook prodEnv (some ⟨some "instagram_account", []⟩)).status = 200 ∧
    (handle_webhook prodEnv (some ⟨some "instagram_account", []⟩)).effects = noEffects :=
  C8_foreign_object_ignored prodEnv ⟨some "instagram_account", []⟩ (by decide)

/-- C9: an empty (or absent) service list makes the prompt carry the
single fallback contact-invitation line; a non-empty list appears as its
bullet lines concatenated in stored order. -/
theorem C9_prompt_service_section (info : TenantRecord) :
    (info.services.getD [] = [] → containsStr (build_system_prompt info) noServicesLine) ∧
    (∀ l, info.services = some l → l ≠ [] →
      containsStr (build_system_prompt info) (String.join (l.map serviceLine))) := by
  constructor
  · intro h
    exact ⟨promptHead info, promptTail, by unfold build_system_prompt; rw [h]; rfl⟩
  · intro l hl hne
    refine ⟨promptHead info, promptTail, ?_⟩
    unfold build_system_prompt
    rw [hl]
    rcases l with _ | ⟨a, t⟩
    · exact absurd rfl hne
    · rfl

/-- C9 witness: the sample tenant with its list emptied, and with its
one-service list. -/
theorem C9_prompt_witness :
    containsStr (build_system_prompt { sampleRecord with services := some [] })
      noServicesLine ∧
    containsStr (build_system_prompt sampleRecord)
      (String.join
        ([(⟨some "Design de Sobrancelhas", some "50", some "40min"⟩ : Service)].map
          serviceLine)) :=
  ⟨(C9_prompt_service_section { sampleRecord with services := some [] }).1 rfl,
   (C9_prompt_service_section sampleRecord).2
     [⟨some "Design de Sobrancelhas", some "50", some "40min"⟩] rfl (by decide)⟩

/-- C2: a tenant with `message_count >= message_limit` gets exactly the
fixed limit-reached dispatch; the Reply Generator is not called, the
counter is not incremented, no history row is written.  The gate uses
strict less-than, so exactly-at-limit is blocked (the witness hits it). -/
theorem C2_limit_blocked (env : Env) (body : WebhookBody)
    (e : Entry) (es : List Entry) (c : Change) (cs : List Change)
    (v : Value) (m : Message) (ms : List Message) (tid : String) (r : TenantRecord)
    (hobj : body.object = some "whatsapp_business_account")
    (hentry : body.entry = e :: es)
    (hch : e.changes = c :: cs)
    (hv : c.value = some v)
    (hmsg : v.messages = m :: ms)
    (hty : m.type = some "text")
    (hfrom : falsyStr m.msg_from = false)
    (htext : ¬ (pyStrip (m.textBody.getD "") = ""))
    (hres : get_tenant_id_from_message env = some tid) (htid : tid ≠ "")
    (hload : env.tenantData tid = some r)
    (hlim : r.message_count.getD 0 ≥ r.message_limit.getD 100) :
    (handle_webhook env (some body)).effects.sent = [(m.msg_from.getD "", limitMessage)] ∧
    (handle_webhook env (some body)).effects.modelCalls = [] ∧
    (handle_webhook env (some body)).effects.counterUpdates = [] ∧
    (handle_webhook env (some body)).effects.historyWrites = [] := by
  rw [handle_webhook_reach env body e es c cs v m ms hobj hentry hch hv hmsg hty hfrom htext,
    processMessage_limit env (m.msg_from.getD "") (pyStrip (m.textBody.getD "")) tid r
      hres htid hload hlim]
  exact ⟨rfl, rfl, rfl, rfl⟩

/-- C2 witness: the sample payload against a tenant exactly at its
limit (5 of 5). -/
theorem C2_limit_witness :
    (handle_webhook (mkEnv atLimitRecord (some "olá") true) (some sampleBody)).effects.sent =
      [("5511999999999", limitMessage)] ∧
    (handle_webhook (mkEnv atLimitRecord (some "olá") true) (some sampleBody)).effects.modelCalls = [] ∧
    (handle_webhook (mkEnv atLimitRecord (some "olá") true) (some sampleBody)).effects.counterUpdates = [] ∧
    (handle_webhook (mkEnv atLimitRecord (some "olá") true) (some sampleBody)).effects.historyWrites = [] :=
  C2_limit_blocked (mkEnv atLimitRecord (some "olá") true) sampleBody
    ⟨[⟨some ⟨[sampleMessage]⟩⟩]⟩ [] ⟨some ⟨[sampleMessage]⟩⟩ [] ⟨[sampleMessage]⟩
    sampleMessage [] "t1" atLimitRecord
    rfl rfl rfl rfl rfl rfl rfl (by decide) rfl (by decide) rfl (by decide)

/-- C3: an acknowledged delivery issues exactly one counter write, with
value pre-count + 1, and exactly one history row whose user text and bot
text are each truncated to 1000 code points. -/
theorem C3_delivery_accounted (env : Env) (body : WebhookBody)
    (e : Entry) (es : List Entry) (c : Change) (cs : List Change)
    (v : Value) (m : Message) (ms : List Message) (tid : String) (r : TenantRecord)
    (hobj : body.object = some "whatsapp_business_account")
    (hentry : body.entry = e :: es)
    (hch : e.changes = c :: cs)
    (hv : c.value = some v)
    (hmsg : v.messages = m :: ms)
    (hty : m.type = some "text")
    (hfrom : falsyStr m.msg_from = false)
    (htext : ¬ (pyStrip (m.textBody.getD "") = ""))
    (hres : get_tenant_id_from_message env = some tid) (htid : tid ≠ "")
    (hload : env.tenantData tid = some r)
    (hlim : ¬ r.message_count.getD 0 ≥ r.message_limit.getD 100)
    (hbot : env.botInitFails = false)
    (hsend : env.sendResult (m.msg_from.getD "")
      (get_response env r (pyStrip (m.textBody.getD ""))) = true) :
    (handle_webhook env (some body)).effects.counterUpdates =
      [(tid, r.message_count.getD 0 + 1)] ∧
    (handle_webhook env (some body)).effects.historyWrites =
      [⟨tid, m.msg_from.getD "", pyTake (pyStrip (m.textBody.getD "")) 1000,
        pyTake (get_response env r (pyStrip (m.textBody.getD ""))) 1000⟩] := by
  rw [handle_webhook_reach env body e es c cs v m ms hobj hentry hch hv hmsg hty hfrom htext,
    processMessage_delivered env (m.msg_from.getD "") (pyStrip (m.textBody.getD "")) tid r
      hres htid hload hlim hbot hsend]
  exact ⟨rfl, rfl⟩

/-- C3 witness: concrete acknowledged delivery for the sample tenant at
count 3: the write is 4 and the single history row holds both texts. -/
theorem C3_delivery_witness :
    (handle_webhook (mkEnv sampleRecord (some "Custa R$ 50.") true)
        (some sampleBody)).effects.counterUpdates = [("t1", 4)] ∧
    (handle_webhook (mkEnv sampleRecord (some "Custa R$ 50.") true)
        (some sampleBody)).effects.historyWrites =
      [⟨"t1", "5511999999999", "Quanto custa o design de sobrancelhas?", "Custa R$ 50."⟩] :=
  C3_delivery_accounted (mkEnv sampleRecord (some "Custa R$ 50.") true) sampleBody
    ⟨[⟨some ⟨[sampleMessage]⟩⟩]⟩ [] ⟨some ⟨[sampleMessage]⟩⟩ [] ⟨[sampleMessage]⟩
    sampleMessage [] "t1" sampleRecord
    rfl rfl rfl rfl rfl rfl rfl (by decide) rfl (by decide) rfl (by decide) rfl rfl

/-- C4: a failed delivery (Dispatcher returns false) leaves the quota
counter and the history untouched; the dispatch attempt itself is the
only downstream effect after the model call. -/
theorem C4_failed_delivery_frame (env : Env) (body : WebhookBody)
    (e : Entry) (es : List Entry) (c : Change) (cs : List Change)
    (v : Value) (m : Message) (ms : List Message) (tid : String) (r : TenantRecord)
    (hobj : body.object = some "whatsapp_business_account")
    (hentry : body.entry = e :: es)
    (hch : e.changes = c :: cs)
    (hv : c.value = some v)
    (hmsg : v.messages = m :: ms)
    (hty : m.type = some "text")
    (hfrom : falsyStr m.msg_from = false)
    (htext : ¬ (pyStrip (m.textBody.getD "") = ""))
    (hres : get_tenant_id_from_message env = some tid) (htid : tid ≠ "")
    (hload : env.tenantData tid = some r)
    (hlim : ¬ r.message_count.getD 0 ≥ r.message_limit.getD 100)
    (hbot : env.botInitFails = false)
    (hsend : env.sendResult (m.msg_from.getD "")
      (get_response env r (pyStrip (m.textBody.getD ""))) = false) :
    (handle_webhook env (some body)).effects.counterUpdates = [] ∧
    (handle_webhook env (some body)).effects.historyWrites = [] ∧
    (handle_webhook env (some body)).effects.sent =
      [(m.msg_from.getD "", get_response env r (pyStrip (m.textBody.getD "")))] := by
  rw [handle_webhook_reach env body e es c cs v m ms hobj hentry hch hv hmsg hty hfrom htext,
    processMessage_send_failed env (m.msg_from.getD "") (pyStrip (m.textBody.getD "")) tid r
      hres htid hload hlim hbot hsend]
  exact ⟨rfl, rfl, rfl⟩

/-- C4 witness: same scenario as the C3 witness but with the dispatcher
refusing: nothing is recorded. -/
theorem C4_failed_delivery_witness :
    (handle_webhook (mkEnv sampleRecord (some "Custa R$ 50.") false)
        (some sampleBody)).effects.counterUpdates = [] ∧
    (handle_webhook (mkEnv sampleRecord (some "Custa R$ 50.") false)
        (some sampleBody)).effects.historyWrites = [] ∧
    (handle_webhook (mkEnv sampleRecord (some "Custa R$ 50.") false)
        (some sampleBody)).effects.sent = [("5511999999999", "Custa R$ 50.")] :=
  C4_failed_delivery_frame (mkEnv sampleRecord (some "Custa R$ 50.") false) sampleBody
    ⟨[⟨some ⟨[sampleMessage]⟩⟩]⟩ [] ⟨some ⟨[sampleMessage]⟩⟩ [] ⟨[sampleMessage]⟩
    sampleMessage [] "t1" sampleRecord
    rfl rfl rfl rfl rfl rfl rfl (by decide) rfl (by decide) rfl (by decide) rfl rfl

/-- C5 counterexample: when the tenant id cannot be determined, the
handler answers 200 and logs an error, but it DOES send a reply — the
fixed identification apology — contradicting the claim that no reply is
sent on a mapping miss. -/
theorem C5_counterexample :
    (handle_webhook prodEnv (some sampleBody)).status = 200 ∧
    (handle_webhook prodEnv (some sampleBody)).effects.errorLogs ≠ [] ∧
    (handle_webhook prodEnv (some sampleBody)).effects.sent =
      [("5511999999999", noTenantApology)] ∧
    (handle_webhook prodEnv (some sampleBody)).effects.sent ≠ [] := by
  refine ⟨rfl, by decide, rfl, by decide⟩

/-- C5 (amended): a mapping miss is logged and answered 200 but sends
the fixed identification apology to the user; a tenant-record miss is
logged and answered 200 with no reply sent. -/
theorem C5_amended_lookup_miss (env : Env) (body : WebhookBody)
    (e : Entry) (es : List Entry) (c : Change) (cs : List Change)
    (v : Value) (m : Message) (ms : List Message)
    (hobj : body.object = some "whatsapp_business_account")
    (hentry : body.entry = e :: es)
    (hch : e.changes = c :: cs)
    (hv : c.value = some v)
    (hmsg : v.messages = m :: ms)
    (hty : m.type = some "text")
    (hfrom : falsyStr m.msg_from = false)
    (htext : ¬ (pyStrip (m.textBody.getD "") = "")) :
    (falsyStr (get_tenant_id_from_message env) = true →
      (handle_webhook env (some body)).status = 200 ∧
      (handle_webhook env (some body)).effects.errorLogs ≠ [] ∧
      (handle_webhook env (some body)).effects.sent =
        [(m.msg_from.getD "", noTenantApology)]) ∧
    (∀ tid, get_tenant_id_from_message env = some tid → tid ≠ "" →
      env.tenantData tid = none →
      (handle_webhook env (some body)).status = 200 ∧
      (handle_webhook env (some body)).effects.errorLogs ≠ [] ∧
      (handle_webhook env (some body)).effects.sent = []) := by
  rw [handle_webhook_reach env body e es c cs v m ms hobj hentry hch hv hmsg hty hfrom htext]
  constructor
  · intro h
    rw [processMessage_no_tenant env (m.msg_from.getD "") (pyStrip (m.textBody.getD "")) h]
    exact ⟨rfl, by simp, rfl⟩
  · intro tid h1 h2 h3
    rw [processMessage_load_miss env (m.msg_from.getD "") (pyStrip (m.textBody.getD "")) tid h1 h2 h3]
    exact ⟨rfl, by simp, rfl⟩

/-- C5 witness: the mapping-miss environment sends the apology; the
record-miss environment sends nothing; both log. -/
theorem C5_amended_witness :
    (handle_webhook prodEnv (some sampleBody)).effects.sent =
      [("5511999999999", noTenantApology)] ∧
    (handle_webhook loadMissEnv (some sampleBody)).effects.sent = [] ∧
    (handle_webhook loadMissEnv (some sampleBody)).effects.errorLogs ≠ [] :=
  ⟨((C5_amended_lookup_miss prodEnv sampleBody
      ⟨[⟨some ⟨[sampleMessage]⟩⟩]⟩ [] ⟨some ⟨[sampleMessage]⟩⟩ [] ⟨[sampleMessage]⟩
      sampleMessage []
      rfl rfl rfl rfl rfl rfl rfl (by decide)).1 rfl).2.2,
   ((C5_amended_lookup_miss loadMissEnv sampleBody
      ⟨[⟨some ⟨[sampleMessage]⟩⟩]⟩ [] ⟨some ⟨[sampleMessage]⟩⟩ [] ⟨[sampleMessage]⟩
      sampleMessage []
      rfl rfl rfl rfl rfl rfl rfl (by decide)).2 "t1" rfl (by decide) rfl).2.2,
   ((C5_amended_lookup_miss loadMissEnv sampleBody
      ⟨[⟨some ⟨[sampleMessage]⟩⟩]⟩ [] ⟨some ⟨[sampleMessage]⟩⟩ [] ⟨[sampleMessage]⟩
      sampleMessage []
      rfl rfl rfl rfl rfl rfl rfl (by decide)).2 "t1" rfl (by decide) rfl).2.1⟩

/-- C10: a missing `message_count` is read as 0 and a missing
`message_limit` as 100, so a record with neither field passes the quota
gate: the model is called, the reply dispatched, and an acknowledged
delivery writes counter value 0 + 1. -/
theorem C10_default_quota_fields (env : Env) (body : WebhookBody)
    (e : Entry) (es : List Entry) (c : Change) (cs : List Change)
    (v : Value) (m : Message) (ms : List Message) (tid : String) (r : TenantRecord)
    (hobj : body.object = some "whatsapp_business_account")
    (hentry : body.entry = e :: es)
    (hch : e.changes = c :: cs)
    (hv : c.value = some v)
    (hmsg : v.messages = m :: ms)
    (hty : m.type = some "text")
    (hfrom : falsyStr m.msg_from = false)
    (htext : ¬ (pyStrip (m.textBody.getD "") = ""))
    (hres : get_tenant_id_from_message env = some tid) (htid : tid ≠ "")
    (hload : env.tenantData tid = some r)
    (hcount : r.message_count = none) (hlimit : r.message_limit = none)
    (hbot : env.botInitFails = false) :
    (handle_webhook env (some body)).effects.modelCalls =
      [pyStrip (m.textBody.getD "")] ∧
    (handle_webhook env (some body)).effects.sent =
      [(m.msg_from.getD "", get_response env r (pyStrip (m.textBody.getD "")))] ∧
    (env.sendResult (m.msg_from.getD "")
        (get_response env r (pyStrip (m.textBody.getD ""))) = true →
      (handle_webhook env (some body)).effects.counterUpdates = [(tid, (0 : Int) + 1)]) := by
  have hlim : ¬ r.message_count.getD 0 ≥ r.message_limit.getD 100 := by
    rw [hcount, hlimit]; decide
  rw [handle_webhook_reach env body e es c cs v m ms hobj hentry hch hv hmsg hty hfrom htext]
  cases hsend : env.sendResult (m.msg_from.getD "")
      (get_response env r (pyStrip (m.textBody.getD ""))) with
  | false =>
    rw [processMessage_send_failed env (m.msg_from.getD "") (pyStrip (m.textBody.getD ""))
      tid r hres htid hload hlim hbot hsend]
    exact ⟨rfl, rfl, fun h => by cases h⟩
  | true =>
    rw [processMessage_delivered env (m.msg_from.getD "") (pyStrip (m.textBody.getD ""))
      tid r hres htid hload hlim hbot hsend, hcount]
    exact ⟨rfl, rfl, fun _ => rfl⟩

/-- C10 witness: the bare record (no fields at all) is served and the
acknowledged delivery writes counter value 1. -/
theorem C10_default_quota_witness :
    (handle_webhook (mkEnv bareRecord (some "olá!") true)
        (some sampleBody)).effects.modelCalls =
      ["Quanto custa o design de sobrancelhas?"] ∧
    (handle_webhook (mkEnv bareRecord (some "olá!") true)
        (some sampleBody)).effects.counterUpdates = [("t1", 1)] :=
  ⟨(C10_default_quota_fields (mkEnv bareRecord (some "olá!") true) sampleBody
      ⟨[⟨some ⟨[sampleMessage]⟩⟩]⟩ [] ⟨some ⟨[sampleMessage]⟩⟩ [] ⟨[sampleMessage]⟩
      sampleMessage [] "t1" bareRecord
      rfl rfl rfl rfl rfl rfl rfl (by decide) rfl (by decide) rfl rfl rfl rfl).1,
   (C10_default_quota_fields (mkEnv bareRecord (some "olá!") true) sampleBody
      ⟨[⟨some ⟨[sampleMessage]⟩⟩]⟩ [] ⟨some ⟨[sampleMessage]⟩⟩ [] ⟨[sampleMessage]⟩
      sampleMessage [] "t1" bareRecord
      rfl rfl rfl rfl rfl rfl rfl (by decide) rfl (by decide) rfl rfl rfl rfl).2.2 rfl⟩

end DinaBrows
